import Mathlib

/-!
Shallow embedding of the `loads` package of the eudoxys/resstock repository.

Conventions used throughout this development:

* Numeric cell values are modelled as exact rationals (`ℚ`).  The Python code
  computes with IEEE floats; every claim checked here is about the algebraic
  relations the code establishes, which are stated over the exact arithmetic.
* A pandas `DataFrame` is modelled at the granularity each claim needs:
  per-row statements use a map from column name to value, the timestamp index
  is modelled as hours (natural numbers) since the reference year's Jan 1
  00:00 UTC, and an association list `List (String × ℚ)` models a row of the
  consolidated tables together with its column names.
* A missing value (`float('nan')` or a NaN produced by numpy) is modelled as
  `none : Option ℚ`.
* Python string ordering, prefix tests and splitting are modelled on the
  character lists underlying `String`, because those operations compute in
  the kernel; they agree with Python's semantics on the names used here.
-/

/-- Lexicographic comparison of character lists; models Python string
ordering as used by `sorted(data.columns)` in residential.py line 206 and
commercial.py line 185. -/
def lexLe : List Char → List Char → Bool
  | [], _ => true
  | _ :: _, [] => false
  | a :: as, b :: bs => if a = b then lexLe as bs else decide (a < b)

/-- Models Python `s.startswith(p)` (units.py line 82). -/
def startswith (p s : String) : Bool :=
  p.data.isPrefixOf s.data

/-- Models Python `s.split("|")` on the character list of `s`
(commercial.py line 139).  Splitting the empty string yields `[""]`,
as in Python. -/
def splitPipeChars : List Char → List (List Char)
  | [] => [[]]
  | c :: rest =>
    let r := splitPipeChars rest
    if c = '|' then [] :: r
    else
      match r with
      | [] => [[c]]
      | h :: t => (c :: h) :: t

/-- Models `bts.split("|")` for a building-type split string. -/
def splitCodes (bts : String) : List String :=
  (splitPipeChars bts.data).map (fun l => ⟨l⟩)

/-- Models `pandas.DataFrame.sum(axis=1)` over a selection of columns with
the default `skipna=True`: NaN cells (modelled as `none`) contribute zero,
and an all-NaN selection sums to `0.0` (residential.py line 173). -/
def sumSkipNA (cols : List String) (v : String → Option ℚ) : ℚ :=
  (cols.map (fun c => ((v c).getD 0))).sum

/-- Models `data[name]` on a consolidated row held as an association list;
a missing column is read as zero (the Python code only looks up columns it
has created). -/
def lookupCol (cols : List (String × ℚ)) (name : String) : ℚ :=
  (List.lookup name cols).getD 0

/-- Models `data[sorted(data.columns)]`: reorder the columns of a row
alphabetically (residential.py line 206, commercial.py line 185). -/
def sortCols (cols : List (String × ℚ)) : List (String × ℚ) :=
  List.insertionSort (fun a b => lexLe a.1.data b.1.data = true) cols

/-- Models `data.sort_index()` on an index of hour numbers
(resstock.py line 224, comstock.py line 204, residential.py line 206). -/
def sortIndex (l : List Nat) : List Nat :=
  List.insertionSort (fun a b => a ≤ b) l

/-- Models the year-wraparound fold
`pd.DatetimeIndex([str(x).replace("2019","2018") for x in data.index])`
(resstock.py line 223, comstock.py line 203, residential.py line 204):
timestamps are hours since Jan 1 00:00 of the reference year, `H` is the
number of hours in that year (8760 for 2018), and a timestamp falling in
the following year is relabelled into the reference year by subtracting
one year. -/
def foldYear (H t : Nat) : Nat :=
  if t < H then t else t - H

namespace RESstock

/-- Keys of `RESstock.BUILDING_TYPES` (resstock.py lines 125-131). -/
def BUILDING_TYPES : List (String × String) :=
  [("RSD", "single-family_detached"),
   ("RSA", "single-family_attached"),
   ("RSM", "multi-family_with_2_-_4_units"),
   ("RMM", "multi-family_with_5plus_units"),
   ("RMH", "mobile_home")]

/-- The residential building-type codes iterated over by `Residential`. -/
def buildingTypeCodes : List String :=
  BUILDING_TYPES.map Prod.fst

/-- Per-cell normalization `_float(x)/units*1000` (resstock.py line 213).
With `units = 0` (the zero-stock fallback table, whose cells are all `0.0`),
numpy produces NaN, modelled as `none`; otherwise the value is
`x / units * 1000` average watts per housing unit. -/
def value (units x : ℚ) : Option ℚ :=
  if units = 0 then none else some (x / units * 1000)

/-- The raw hourly index written by the loader before the year-end fold:
`H` consecutive hours starting `o` hours into the reference year
(the cached RESstock/COMstock series runs from 05:00 UTC Jan 1 through
04:00 UTC Jan 1 of the next year, i.e. `o = 5`, `H = 8760`). -/
def rawIndex (o H : Nat) : List Nat :=
  List.range' o H

/-- The loader's final index: year-end hours folded back into the reference
year, then sorted chronologically (resstock.py lines 222-224). -/
def foldedIndex (o H : Nat) : List Nat :=
  sortIndex ((rawIndex o H).map (foldYear H))

end RESstock

namespace COMstock

/-- Keys of `COMstock.BUILDING_TYPES` (comstock.py lines 95-110). -/
def BUILDING_TYPES : List (String × String) :=
  [("CLF", "fullservicerestaurant"),
   ("CLH", "hospital"),
   ("CLL", "largehotel"),
   ("CLO", "largeoffice"),
   ("CSH", "outpatient"),
   ("CMO", "mediumoffice"),
   ("CSE", "primaryschool"),
   ("CSF", "quickservicerestaurant"),
   ("CSR", "retailstandalone"),
   ("CMR", "retailstripmall"),
   ("CME", "secondaryschool"),
   ("CSL", "smallhotel"),
   ("CSO", "smalloffice"),
   ("CMW", "warehouse")]

/-- The commercial building-type codes iterated over by `Commercial`. -/
def buildingTypeCodes : List String :=
  BUILDING_TYPES.map Prod.fst

/-- Per-cell normalization with the explicit zero-floor-area guard
`0.0 if floor_area == 0.0 else _float(x)/floor_area*1000`
(comstock.py lines 192-193). -/
def value (floorArea x : ℚ) : ℚ :=
  if floorArea = 0 then 0 else x / floorArea * 1000

end COMstock

namespace Residential

/-- `Residential.COLLECT` (residential.py lines 47-121): mapping of
consolidated category names to the RESstock columns summed into them. -/
def COLLECT : List (String × List String) :=
  [("elec_baseload",
    ["elec_bathfan", "elec_ceilingfan", "elec_dryer", "elec_washer",
     "elec_cooking", "elec_dishwasher", "elec_holidaylight",
     "elec_extlighting", "elec_extrarefrigerator", "elec_freezer",
     "elec_garagelighting", "elec_hottubheater", "elec_hottubpump",
     "elec_housefan", "elec_interiorlighting", "elec_plugs",
     "elec_poolheater", "elec_poolpump", "elec_rangefan",
     "elec_recircpump", "elec_refrigerator", "elec_vehicle",
     "elec_watersystems", "elec_wellpump"]),
   ("elec_cooling",
    ["elec_cooling", "elec_coolingfan", "elec_coolingpump"]),
   ("elec_heating",
    ["elec_heating", "elec_heatingfan", "elec_heatingsupplement",
     "elec_heatingpump"]),
   ("elec_dg", ["elec_pv"]),
   ("elec_total", ["elec_total"]),
   ("nonelec_baseload",
    ["oil_watersystems", "gas_dryer", "gas_cooking", "gas_grill",
     "gas_hottubheater", "gas_lighting", "gas_poolheater", "lng_dryer",
     "lng_range", "lng_watersystems"]),
   ("nonelec_cooling", []),
   ("nonelec_heating",
    ["oil_heating", "gas_fireplace", "gas_heating", "gas_watersystems",
     "lng_heating", "wood_heating"]),
   ("nonelec_dg", []),
   ("nonelec_total",
    ["oil_total", "gas_total", "lng_total", "wood_total"])]

/-- `collect[aggr]`: the RESstock columns collected into one category. -/
def collectCols (aggr : String) : List String :=
  ((COLLECT.find? (fun ac => ac.1 == aggr)).map Prod.snd).getD []

/-- `data[f"{btype}_{aggr}_MW"] = bdata[columns].sum(axis=1) / 1e6`
(residential.py line 173): sum the collected RESstock columns of one
building type at one timestamp and convert W to MW.  `bdata` is the
building type's RESstock row (NaN cells are `none`). -/
def catValue (cols : List String) (bdata : String → Option ℚ) : ℚ :=
  sumSkipNA cols bdata / 1000000

/-- `total_units` as actually accumulated by the nested loops of
residential.py lines 165-175: `total_units += units[btype]` runs once per
entry of `collect`, so each building type's units are counted once per
category. -/
def totalUnits (collect : List (String × List String)) (btypes : List String)
    (units : String → ℚ) : ℚ :=
  (btypes.map (fun b => (collect.map (fun _ => units b)).sum)).sum

/-- The scaling multiplier `units[btype] / total_units * actual_units`
applied to every category column of a building type
(residential.py line 192), over total ℚ division (`0 / 0 = 0`).  This is
the multiplier-generic model used by the consolidation pipeline below; the
float-faithful variant that keeps numpy's non-finite result at
`total_units = 0` is `weightF`. -/
def weight (units : String → ℚ) (tU aU : ℚ) (b : String) : ℚ :=
  units b / tU * aU

/-- The same multiplier with numpy float semantics: dividing by a zero
`total_units` yields a non-finite value (`0.0/0.0` is NaN for a zero-stock
building type, `±inf` otherwise), modelled as `none`; any finite quotient
is the exact rational. -/
def weightF (units : String → ℚ) (tU aU : ℚ) (b : String) : Option ℚ :=
  if tU = 0 then none else some (units b / tU * aU)

/-- One building type's contribution to one consolidated category column:
the scaled value accumulated by `data[f"{ctype}_MW"] += data[f"{btype}_{ctype}_MW"]`
(residential.py lines 192-196).  The per-unit fraction `pu` computed on
line 191 is discarded by the source and is not modelled. -/
def contrib (collect : List (String × List String)) (btypes : List String)
    (bdata : String → String → Option ℚ) (units : String → ℚ) (aU : ℚ)
    (b : String) (cols : List String) : ℚ :=
  weight units (totalUnits collect btypes units) aU b * catValue cols (bdata b)

/-- The float-faithful contribution: `data[kwname] *= weight` multiplies
the finite pre-weighting category value by the numpy weight, so a
non-finite weight (zero `total_units`) makes the column non-finite (NaN),
modelled as `none`. -/
def contribF (collect : List (String × List String)) (btypes : List String)
    (bdata : String → String → Option ℚ) (units : String → ℚ) (aU : ℚ)
    (b : String) (cols : List String) : Option ℚ :=
  (weightF units (totalUnits collect btypes units) aU b).map
    (fun w => w * catValue cols (bdata b))

/-- A consolidated category column value: the sum of all building types'
scaled contributions (residential.py lines 185-196). -/
def consolidated (collect : List (String × List String)) (btypes : List String)
    (bdata : String → String → Option ℚ) (units : String → ℚ) (aU : ℚ)
    (cols : List String) : ℚ :=
  (btypes.map (fun b => contrib collect btypes bdata units aU b cols)).sum

/-- The consolidated columns keyed `f"{ctype}_MW"`, one per entry of
`collect` (residential.py lines 179-196). -/
def consolidatedCols (collect : List (String × List String))
    (btypes : List String) (bdata : String → String → Option ℚ)
    (units : String → ℚ) (aU : ℚ) : List (String × ℚ) :=
  collect.map (fun ac => (ac.1 ++ "_MW", consolidated collect btypes bdata units aU ac.2))

/-- One row of the final `Residential` table before the column reordering
(residential.py lines 199-201): append
`elec_net_MW = elec_total_MW + elec_dg_MW` and drop `nonelec_dg_MW`. -/
def outputUnsorted (collect : List (String × List String)) (btypes : List String)
    (bdata : String → String → Option ℚ) (units : String → ℚ) (aU : ℚ) :
    List (String × ℚ) :=
  let d := consolidatedCols collect btypes bdata units aU
  let d2 := d ++ [("elec_net_MW", lookupCol d "elec_total_MW" + lookupCol d "elec_dg_MW")]
  d2.filter (fun r => r.1 != "nonelec_dg_MW")

/-- One row of the final `Residential` table (residential.py lines 199-206):
the same columns ordered alphabetically. -/
def output (collect : List (String × List String)) (btypes : List String)
    (bdata : String → String → Option ℚ) (units : String → ℚ) (aU : ℚ) :
    List (String × ℚ) :=
  sortCols (outputUnsorted collect btypes bdata units aU)

end Residential

namespace Commercial

/-- `Commercial.COLLECT` (commercial.py lines 47-92). -/
def COLLECT : List (String × List String) :=
  [("elec_baseload",
    ["elec_exteriorlights", "elec_fans", "elec_heatrejection",
     "elec_equipment", "elec_interiorlights", "elec_pumps",
     "elec_refrigeration", "elec_watersystems"]),
   ("elec_cooling", ["elec_cooling"]),
   ("elec_heating", ["elec_heating", "elec_heatrecovery"]),
   ("elec_dg", []),
   ("elec_total", ["elec_total"]),
   ("nonelec_baseload",
    ["district_hotwater", "gas_heating", "gas_equipment",
     "gas_watersystems", "other_watersystems"]),
   ("nonelec_cooling", ["district_cooling"]),
   ("nonelec_heating", ["other_heating", "district_heating"]),
   ("nonelec_dg", []),
   ("nonelec_total",
    ["other_total", "gas_total", "district_totalcooling",
     "district_totalheating"])]

/-- `collect[aggr]`: the COMstock columns collected into one category. -/
def collectCols (aggr : String) : List String :=
  ((COLLECT.find? (fun ac => ac.1 == aggr)).map Prod.snd).getD []

/-- A row of the `split_areas` table built by commercial.py lines 136-144.
`code` is a single building-type code (`"OTH"` when the floor-area category
matches no code), `floorarea` is the category's floor area divided equally
among the codes of its split, `splits` is the original pipe-delimited
category string, and `fraction` is the category's share of the county's
total floor area. -/
structure SplitRow where
  code : String
  floorarea : ℚ
  splits : String
  fraction : ℚ
deriving DecidableEq

/-- The `split_areas` table (commercial.py lines 136-144) built from
`actual_areas`, a list of (pipe-delimited building-type string, floor area)
pairs. -/
def splitRows (aa : List (String × ℚ)) : List SplitRow :=
  let total := (aa.map Prod.snd).sum
  aa.flatMap (fun r =>
    (splitCodes r.1).map (fun bt =>
      ⟨if bt = "" then "OTH" else bt,
       r.2 / ((splitCodes r.1).length : ℚ),
       r.1,
       r.2 / total⟩))

/-- `split_areas.loc[btype].FLOORAREA` (commercial.py line 172): the
equal-division floor-area share looked up for one building-type code. -/
def splitShare (aa : List (String × ℚ)) (b : String) : ℚ :=
  (((splitRows aa).find? (fun r => r.code == b)).map SplitRow.floorarea).getD 0

/-- The `FRACTION` column of the same row (commercial.py line 143); the
source computes and stores it but never reads it back. -/
def splitFraction (aa : List (String × ℚ)) (b : String) : ℚ :=
  (((splitRows aa).find? (fun r => r.code == b)).map SplitRow.fraction).getD 0

/-- `bdata[columns].sum(axis=1) / 1e6` (commercial.py line 155); COMstock
cells are never NaN thanks to the zero-floor-area guard, so the row is a
total function. -/
def catValue (cols : List String) (bdata : String → ℚ) : ℚ :=
  (cols.map bdata).sum / 1000000

/-- `total_area` as accumulated by commercial.py lines 147-157: like the
residential case, `total_area += floorarea[btype]` runs once per entry of
`collect`. -/
def totalArea (collect : List (String × List String)) (btypes : List String)
    (bfa : String → ℚ) : ℚ :=
  (btypes.map (fun b => (collect.map (fun _ => bfa b)).sum)).sum

/-- The scaling multiplier
`floorarea[btype] / total_area * split_areas.loc[btype].FLOORAREA`
(commercial.py line 172), over total ℚ division (`0 / 0 = 0`); the
float-faithful variant that keeps numpy's non-finite result at
`total_area = 0` is `weightF`. -/
def weight (bfa : String → ℚ) (tA : ℚ) (aa : List (String × ℚ)) (b : String) : ℚ :=
  bfa b / tA * splitShare aa b

/-- The same multiplier with numpy float semantics: dividing by a zero
`total_area` yields a non-finite value (NaN for a zero-floor-area building
type), modelled as `none`. -/
def weightF (bfa : String → ℚ) (tA : ℚ) (aa : List (String × ℚ)) (b : String) :
    Option ℚ :=
  if tA = 0 then none else some (bfa b / tA * splitShare aa b)

/-- One building type's contribution to one consolidated category column
(commercial.py lines 165-177). -/
def contrib (collect : List (String × List String)) (btypes : List String)
    (bdata : String → String → ℚ) (bfa : String → ℚ) (aa : List (String × ℚ))
    (b : String) (cols : List String) : ℚ :=
  weight bfa (totalArea collect btypes bfa) aa b * catValue cols (bdata b)

/-- The float-faithful commercial contribution: a non-finite weight (zero
`total_area`) makes the scaled column non-finite (NaN), modelled as
`none`. -/
def contribF (collect : List (String × List String)) (btypes : List String)
    (bdata : String → String → ℚ) (bfa : String → ℚ) (aa : List (String × ℚ))
    (b : String) (cols : List String) : Option ℚ :=
  (weightF bfa (totalArea collect btypes bfa) aa b).map
    (fun w => w * catValue cols (bdata b))

/-- A consolidated commercial category column value. -/
def consolidated (collect : List (String × List String)) (btypes : List String)
    (bdata : String → String → ℚ) (bfa : String → ℚ) (aa : List (String × ℚ))
    (cols : List String) : ℚ :=
  (btypes.map (fun b => contrib collect btypes bdata bfa aa b cols)).sum

/-- The consolidated columns keyed `f"{ctype}_MW"`. -/
def consolidatedCols (collect : List (String × List String))
    (btypes : List String) (bdata : String → String → ℚ) (bfa : String → ℚ)
    (aa : List (String × ℚ)) : List (String × ℚ) :=
  collect.map (fun ac => (ac.1 ++ "_MW", consolidated collect btypes bdata bfa aa ac.2))

/-- One row of the final `Commercial` table before the column reordering
(commercial.py lines 179-181). -/
def outputUnsorted (collect : List (String × List String)) (btypes : List String)
    (bdata : String → String → ℚ) (bfa : String → ℚ) (aa : List (String × ℚ)) :
    List (String × ℚ) :=
  let d := consolidatedCols collect btypes bdata bfa aa
  let d2 := d ++ [("elec_net_MW", lookupCol d "elec_total_MW" + lookupCol d "elec_dg_MW")]
  d2.filter (fun r => r.1 != "nonelec_dg_MW")

/-- One row of the final `Commercial` table (commercial.py lines 179-185). -/
def output (collect : List (String × List String)) (btypes : List String)
    (bdata : String → String → ℚ) (bfa : String → ℚ) (aa : List (String × ℚ)) :
    List (String × ℚ) :=
  sortCols (outputUnsorted collect btypes bdata bfa aa)

end Commercial

/-- The outer-join key set of the county/FIPS merge in industry.py
lines 228-239 and agriculture.py lines 115-126: the union of the canonical
county FIPS codes and the FIPS codes appearing in the NREL data, sorted
ascending (pandas sorts the keys of an outer merge; both operands carry
5-digit zero-padded codes, so lexicographic and numeric order agree and
FIPS codes are modelled as naturals). -/
def outerKeys (countyKeys dataKeys : List Nat) : List Nat :=
  sortIndex ((countyKeys ++ dataKeys).dedup)

/-- The county name attached to a merge key: `some name` when the key is a
canonical county FIPS code, `none` (pandas NaN) otherwise. -/
def countyLabel (counties : List (Nat × String)) (k : Nat) : Option String :=
  ((counties.find? (fun p => p.1 == k)).map Prod.snd)

/-- The merged rows before `ffill`: one row per outer-join key carrying the
county name or NaN. -/
def mergedRows (counties : List (Nat × String)) (dataKeys : List Nat) :
    List (Nat × Option String) :=
  (outerKeys (counties.map Prod.fst) dataKeys).map (fun k => (k, countyLabel counties k))

/-- `DataFrame.ffill()` restricted to the county-name column: replace each
NaN by the nearest earlier non-NaN value, `last` being the value carried in
from before the list. -/
def ffillFrom (last : Option String) : List (Nat × Option String) → List (Nat × Option String)
  | [] => []
  | (k, some v) :: rest => (k, some v) :: ffillFrom (some v) rest
  | (k, none) :: rest => (k, last) :: ffillFrom last rest

/-- The county a FIPS code `k` ends up attributed to by the
merge-then-ffill pipeline (before the final `groupby(["state","county"]).sum()`). -/
def attributedCounty (counties : List (Nat × String)) (dataKeys : List Nat)
    (k : Nat) : Option String :=
  (((ffillFrom none (mergedRows counties dataKeys)).find? (fun r => r.1 == k)).map Prod.snd).getD none

/-- Python `shape * int(n/m) + shape[:n%m]` (industry.py line 275,
agriculture.py line 162): `k` whole copies of the shape followed by its
leading remainder. -/
def repeatList (l : List ℚ) : Nat → List ℚ
  | 0 => []
  | k + 1 => l ++ repeatList l k

/-- The tiled/truncated load shape fitted to a date range of `n` intervals. -/
def tileShape (shape : List ℚ) (n : Nat) : List ℚ :=
  repeatList shape (n / shape.length) ++ shape.take (n % shape.length)

/-- The duck-typed `loadshape` argument of `Industry`/`Agriculture`: either
a single-column dataframe of multipliers or a dict whose date range spans
`n` intervals. -/
inductive Loadshape
  | frame (vals : List ℚ)
  | dict (shape : List ℚ) (n : Nat)
deriving DecidableEq

namespace Industry

/-- `* 1e12 * 0.2931 / 1e6 / 365.2425 / 24` (industry.py lines 210-214):
convert an annual energy total in TBTU/year to an average load in MW. -/
def toAvgMW (x : ℚ) : ℚ :=
  x * 1000000000000 * (2931 / 10000) / 1000000 / (3652425 / 10000) / 24

/-- The rollout of a county's scalar loads over a dict loadshape
(industry.py lines 264-283): each interval gets the tiled shape value times
the county's annual average MW, for the `nonelec_total_MW` and
`elec_net_MW` columns respectively. -/
def rolloutDict (shape : List ℚ) (n : Nat) (nonelec elec : ℚ) : List (ℚ × ℚ) :=
  (tileShape shape n).map (fun s => (s * nonelec, s * elec))

/-- The rollout over a single-column dataframe loadshape
(industry.py lines 254-263). -/
def rolloutFrame (vals : List ℚ) (nonelec elec : ℚ) : List (ℚ × ℚ) :=
  vals.map (fun s => (s * nonelec, s * elec))

/-- `data.loc[state,:]` on the merged (state, county)-indexed table:
the rows of one state, the state level dropped. -/
def stateRows (tbl : List (String × String × ℚ × ℚ)) (st : String) :
    List (String × ℚ × ℚ) :=
  (tbl.filter (fun r => r.1 == st)).map (fun r => r.2)

/-- `data.loc[state,county]` (industry.py lines 251, 255, 276): the two
scalars of one county; `none` models the `KeyError` raised when the pair is
absent (including the unreachable `state=None` case). -/
def countyVals (tbl : List (String × String × ℚ × ℚ)) (st : Option String)
    (cty : String) : Option (ℚ × ℚ) :=
  (tbl.find? (fun r => some r.1 == st && r.2.1 == cty)).map (fun r => r.2.2)

/-- The possible results of the `Industry` constructor's dispatch. -/
inductive Result
  | all (rows : List (String × String × ℚ × ℚ))
  | state (rows : List (String × ℚ × ℚ))
  | county (vals : Option (ℚ × ℚ))
  | rollout (rows : Option (List (ℚ × ℚ)))
deriving DecidableEq

/-- The branch structure of `Industry.__init__` (industry.py lines 241-283):
nationwide, statewide, single county raw, or loadshape rollout. -/
def build (tbl : List (String × String × ℚ × ℚ)) (state county : Option String)
    (ls : Option Loadshape) : Result :=
  match state, county, ls with
  | none, none, _ => .all tbl
  | some st, none, _ => .state (stateRows tbl st)
  | st, some cty, none => .county (countyVals tbl st cty)
  | st, some cty, some (.frame vals) =>
    .rollout ((countyVals tbl st cty).map (fun p => rolloutFrame vals p.1 p.2))
  | st, some cty, some (.dict shape n) =>
    .rollout ((countyVals tbl st cty).map (fun p => rolloutDict shape n p.1 p.2))

/-- The attribution produced by the outer merge plus forward fill of
industry.py lines 228-239. -/
def attributed (counties : List (Nat × String)) (dataKeys : List Nat) (k : Nat) :
    Option String :=
  attributedCounty counties dataKeys k

end Industry

namespace Agriculture

/-- Same conversion chain as industry.py (agriculture.py lines 97-101). -/
def toAvgMW (x : ℚ) : ℚ :=
  x * 1000000000000 * (2931 / 10000) / 1000000 / (3652425 / 10000) / 24

/-- Dict-loadshape rollout (agriculture.py lines 151-170), textually the
same computation as in industry.py. -/
def rolloutDict (shape : List ℚ) (n : Nat) (nonelec elec : ℚ) : List (ℚ × ℚ) :=
  (tileShape shape n).map (fun s => (s * nonelec, s * elec))

/-- Dataframe-loadshape rollout (agriculture.py lines 141-150). -/
def rolloutFrame (vals : List ℚ) (nonelec elec : ℚ) : List (ℚ × ℚ) :=
  vals.map (fun s => (s * nonelec, s * elec))

/-- `data.loc[state,:]` (agriculture.py line 134). -/
def stateRows (tbl : List (String × String × ℚ × ℚ)) (st : String) :
    List (String × ℚ × ℚ) :=
  (tbl.filter (fun r => r.1 == st)).map (fun r => r.2)

/-- `data.loc[state,county]` (agriculture.py lines 138, 142, 163). -/
def countyVals (tbl : List (String × String × ℚ × ℚ)) (st : Option String)
    (cty : String) : Option (ℚ × ℚ) :=
  (tbl.find? (fun r => some r.1 == st && r.2.1 == cty)).map (fun r => r.2.2)

/-- Results of the `Agriculture` constructor's dispatch. -/
inductive Result
  | all (rows : List (String × String × ℚ × ℚ))
  | state (rows : List (String × ℚ × ℚ))
  | county (vals : Option (ℚ × ℚ))
  | rollout (rows : Option (List (ℚ × ℚ)))
deriving DecidableEq

/-- The branch structure of `Agriculture.__init__`
(agriculture.py lines 128-170). -/
def build (tbl : List (String × String × ℚ × ℚ)) (state county : Option String)
    (ls : Option Loadshape) : Result :=
  match state, county, ls with
  | none, none, _ => .all tbl
  | some st, none, _ => .state (stateRows tbl st)
  | st, some cty, none => .county (countyVals tbl st cty)
  | st, some cty, some (.frame vals) =>
    .rollout ((countyVals tbl st cty).map (fun p => rolloutFrame vals p.1 p.2))
  | st, some cty, some (.dict shape n) =>
    .rollout ((countyVals tbl st cty).map (fun p => rolloutDict shape n p.1 p.2))

/-- The attribution produced by the outer merge plus forward fill of
agriculture.py lines 115-126. -/
def attributed (counties : List (Nat × String)) (dataKeys : List Nat) (k : Nat) :
    Option String :=
  attributedCounty counties dataKeys k

end Agriculture

namespace Units

/-- The result of a `Units(state, county, year)` lookup: the value (with
`none` modelling the `float('nan')` sentinel) together with whether a
warning was emitted. -/
structure Result where
  value : Option ℚ
  warned : Bool
deriving DecidableEq

/-- The county rows matched by the name-prefix rule
`[x for x in data.index if x.startswith(f".{county}")]` (units.py line 82)
against a state table of (row label, units) pairs for the selected year. -/
def matchedRows (table : List (String × ℚ)) (county : String) :
    List (String × ℚ) :=
  table.filter (fun r => startswith ("." ++ county) r.1)

/-- `Units.__new__` for a given county (units.py lines 79-89): if the match
set does not have size exactly 1, warn and return NaN; otherwise return the
single matched value. -/
def lookup (table : List (String × ℚ)) (county : String) : Result :=
  let result := (matchedRows table county).map Prod.snd
  if result.length != 1 then ⟨none, true⟩ else ⟨result.head?, false⟩

end Units

namespace Cache

/-- The outcome of one loader call: the parsed table, whether a remote
fetch happened, and the cache state left behind.  The cache holds the raw
serialized bytes of one dataset file. -/
structure LoadResult (α : Type) where
  table : α
  fetched : Bool
  cache : Option String
deriving DecidableEq

/-- The cache-check-then-download pattern shared by the loaders
(resstock.py lines 160-198, comstock.py lines 139-177): on a miss the
remote payload is downloaded and written to the cache file, and in both
cases the table is parsed from the cache file's contents. -/
def loaderRun {α : Type} (parse : String → α) (remote : String)
    (cache : Option String) : LoadResult α :=
  match cache with
  | some b => ⟨parse b, false, some b⟩
  | none => ⟨parse remote, true, some remote⟩

end Cache

/-! ## Helper lemmas -/

/-- Summing three pointwise-additive columns over a list of building types. -/
theorem list_sum_add3 {α : Type} (l : List α) (f g h k : α → ℚ)
    (H : ∀ b ∈ l, f b + g b + h b = k b) :
    (l.map f).sum + (l.map g).sum + (l.map h).sum = (l.map k).sum := by
  induction l with
  | nil => simp
  | cons a t ih =>
    have h1 := H a (List.mem_cons_self a t)
    have h2 := ih (fun b hb => H b (List.mem_cons_of_mem a hb))
    simp only [List.map_cons, List.sum_cons]
    linarith

/-- `find?` by a key function returns the unique element carrying that key. -/
theorem find?_key_unique {α κ : Type} [DecidableEq κ] (f : α → κ) (l : List α)
    (a : α) (k : κ) (hk : f a = k) (hnd : (l.map f).Nodup) (ha : a ∈ l) :
    l.find? (fun x => f x == k) = some a := by
  induction l with
  | nil => cases ha
  | cons hd tl ih =>
    rw [List.map_cons, List.nodup_cons] at hnd
    obtain ⟨hhd_not, hnd_tl⟩ := hnd
    by_cases hhd : f hd = k
    · have heq : hd = a := by
        rcases List.mem_cons.mp ha with h | h
        · exact h.symm
        · exact absurd (by rw [hhd, ← hk]; exact List.mem_map_of_mem f h) hhd_not
      subst heq
      exact List.find?_cons_of_pos _ (by simp [hhd])
    · have ha_tl : a ∈ tl := by
        rcases List.mem_cons.mp ha with h | h
        · exact absurd (h ▸ hk) hhd
        · exact h
      rw [List.find?_cons_of_neg _ (by simp [hhd])]
      exact ih hnd_tl ha_tl

/-- An association-list lookup with distinct keys finds any stored pair. -/
theorem lookup_some_of_mem_nodup {β : Type} (l : List (String × β)) (n : String)
    (v : β) (hnd : (l.map Prod.fst).Nodup) (hmem : (n, v) ∈ l) :
    List.lookup n l = some v := by
  induction l with
  | nil => cases hmem
  | cons hd tl ih =>
    rw [List.map_cons, List.nodup_cons] at hnd
    obtain ⟨hhd_not, hnd_tl⟩ := hnd
    obtain ⟨k, w⟩ := hd
    rcases List.mem_cons.mp hmem with h | h
    · injection h with h1 h2
      subst h1
      subst h2
      rw [List.lookup_cons, beq_self_eq_true]
    · have hnk : n ≠ k := by
        rintro rfl
        exact hhd_not (List.mem_map.mpr ⟨(n, v), h, rfl⟩)
      rw [List.lookup_cons, beq_eq_false_iff_ne.mpr hnk]
      exact ih hnd_tl h

/-- An association-list lookup only returns stored pairs. -/
theorem mem_of_lookup_some {β : Type} (l : List (String × β)) (n : String) (v : β)
    (h : List.lookup n l = some v) : (n, v) ∈ l := by
  induction l with
  | nil => cases h
  | cons hd tl ih =>
    obtain ⟨k, w⟩ := hd
    by_cases hnk : n = k
    · subst hnk
      rw [List.lookup_cons, beq_self_eq_true] at h
      injection h with h1
      rw [← h1]
      exact List.mem_cons_self _ _
    · rw [List.lookup_cons, beq_eq_false_iff_ne.mpr hnk] at h
      exact List.mem_cons_of_mem _ (ih h)

/-- An association-list lookup fails exactly on absent keys. -/
theorem lookup_none_iff {β : Type} (l : List (String × β)) (n : String) :
    List.lookup n l = none ↔ n ∉ l.map Prod.fst := by
  induction l with
  | nil => simp
  | cons hd tl ih =>
    obtain ⟨k, w⟩ := hd
    by_cases hnk : n = k
    · subst hnk
      rw [List.lookup_cons, beq_self_eq_true]
      simp
    · rw [List.lookup_cons, beq_eq_false_iff_ne.mpr hnk, List.map_cons]
      simp [ih, hnk]

/-- Column lookup is invariant under a permutation of the columns when the
column names are distinct. -/
theorem lookupCol_congr_perm (l l' : List (String × ℚ)) (hp : l.Perm l')
    (hnd : (l.map Prod.fst).Nodup) (n : String) :
    lookupCol l n = lookupCol l' n := by
  unfold lookupCol
  cases h : List.lookup n l with
  | some v =>
    rw [lookup_some_of_mem_nodup l' n v ((hp.map Prod.fst).nodup hnd)
      (hp.mem_iff.mp (mem_of_lookup_some l n v h))]
  | none =>
    rw [(lookup_none_iff l' n).mpr
      (fun hm => (lookup_none_iff l n).mp h (((hp.map Prod.fst).mem_iff).mpr hm))]

/-- `sorted(data.columns)` reorders the columns but changes no lookup. -/
theorem lookupCol_sortCols (l : List (String × ℚ))
    (hnd : (l.map Prod.fst).Nodup) (n : String) :
    lookupCol (sortCols l) n = lookupCol l n := by
  have hp : (sortCols l).Perm l := by
    unfold sortCols
    exact List.perm_insertionSort _ _
  exact lookupCol_congr_perm (sortCols l) l hp (((hp.map Prod.fst).symm).nodup hnd) n

/-- `sorted(data.columns)` preserves the set of column names. -/
theorem mem_map_fst_sortCols (l : List (String × ℚ)) (n : String) :
    n ∈ (sortCols l).map Prod.fst ↔ n ∈ l.map Prod.fst :=
  ((List.perm_insertionSort (fun a b => lexLe a.1.data b.1.data = true) l).map
    Prod.fst).mem_iff

/-! ## Claim theorems -/

/-- Claim C1: in every consolidated sector row built by `Residential` or
`Commercial`, the derived net column satisfies
`elec_net_MW = elec_total_MW + elec_dg_MW`, and the `nonelec_dg_MW` column
is dropped from the output. -/
theorem claim1_net_load_invariant
    (bdataR : String → String → Option ℚ) (unitsR : String → ℚ) (aU : ℚ)
    (bdataC : String → String → ℚ) (bfa : String → ℚ) (aa : List (String × ℚ)) :
    (lookupCol (Residential.output Residential.COLLECT RESstock.buildingTypeCodes bdataR unitsR aU) "elec_net_MW"
      = lookupCol (Residential.output Residential.COLLECT RESstock.buildingTypeCodes bdataR unitsR aU) "elec_total_MW"
        + lookupCol (Residential.output Residential.COLLECT RESstock.buildingTypeCodes bdataR unitsR aU) "elec_dg_MW")
    ∧ "nonelec_dg_MW" ∉ (Residential.output Residential.COLLECT RESstock.buildingTypeCodes bdataR unitsR aU).map Prod.fst
    ∧ (lookupCol (Commercial.output Commercial.COLLECT COMstock.buildingTypeCodes bdataC bfa aa) "elec_net_MW"
      = lookupCol (Commercial.output Commercial.COLLECT COMstock.buildingTypeCodes bdataC bfa aa) "elec_total_MW"
        + lookupCol (Commercial.output Commercial.COLLECT COMstock.buildingTypeCodes bdataC bfa aa) "elec_dg_MW")
    ∧ "nonelec_dg_MW" ∉ (Commercial.output Commercial.COLLECT COMstock.buildingTypeCodes bdataC bfa aa).map Prod.fst := by
  have hndR : ((Residential.outputUnsorted Residential.COLLECT RESstock.buildingTypeCodes bdataR unitsR aU).map Prod.fst).Nodup := by
    have e : (Residential.outputUnsorted Residential.COLLECT RESstock.buildingTypeCodes bdataR unitsR aU).map Prod.fst
        = ["elec_baseload_MW", "elec_cooling_MW", "elec_heating_MW", "elec_dg_MW",
           "elec_total_MW", "nonelec_baseload_MW", "nonelec_cooling_MW",
           "nonelec_heating_MW", "nonelec_total_MW", "elec_net_MW"] := rfl
    rw [e]
    decide
  have hndC : ((Commercial.outputUnsorted Commercial.COLLECT COMstock.buildingTypeCodes bdataC bfa aa).map Prod.fst).Nodup := by
    have e : (Commercial.outputUnsorted Commercial.COLLECT COMstock.buildingTypeCodes bdataC bfa aa).map Prod.fst
        = ["elec_baseload_MW", "elec_cooling_MW", "elec_heating_MW", "elec_dg_MW",
           "elec_total_MW", "nonelec_baseload_MW", "nonelec_cooling_MW",
           "nonelec_heating_MW", "nonelec_total_MW", "elec_net_MW"] := rfl
    rw [e]
    decide
  refine ⟨?_, ?_, ?_, ?_⟩
  · show lookupCol (sortCols _) _ = lookupCol (sortCols _) _ + lookupCol (sortCols _) _
    rw [lookupCol_sortCols _ hndR, lookupCol_sortCols _ hndR, lookupCol_sortCols _ hndR]
    rfl
  · show "nonelec_dg_MW" ∉ (sortCols _).map Prod.fst
    rw [mem_map_fst_sortCols]
    have e : (Residential.outputUnsorted Residential.COLLECT RESstock.buildingTypeCodes bdataR unitsR aU).map Prod.fst
        = ["elec_baseload_MW", "elec_cooling_MW", "elec_heating_MW", "elec_dg_MW",
           "elec_total_MW", "nonelec_baseload_MW", "nonelec_cooling_MW",
           "nonelec_heating_MW", "nonelec_total_MW", "elec_net_MW"] := rfl
    rw [e]
    decide
  · show lookupCol (sortCols _) _ = lookupCol (sortCols _) _ + lookupCol (sortCols _) _
    rw [lookupCol_sortCols _ hndC, lookupCol_sortCols _ hndC, lookupCol_sortCols _ hndC]
    rfl
  · show "nonelec_dg_MW" ∉ (sortCols _).map Prod.fst
    rw [mem_map_fst_sortCols]
    have e : (Commercial.outputUnsorted Commercial.COLLECT COMstock.buildingTypeCodes bdataC bfa aa).map Prod.fst
        = ["elec_baseload_MW", "elec_cooling_MW", "elec_heating_MW", "elec_dg_MW",
           "elec_total_MW", "nonelec_baseload_MW", "nonelec_cooling_MW",
           "nonelec_heating_MW", "nonelec_total_MW", "elec_net_MW"] := rfl
    rw [e]
    decide

/-- Claim C8: starting from any cache state, a second loader call with the
same parameters performs no remote fetch, leaves the cache unchanged, and
returns the same table as the first call. -/
theorem claim8_cache_idempotent {α : Type} (parse : String → α) (remote : String)
    (c0 : Option String) :
    (Cache.loaderRun parse remote (Cache.loaderRun parse remote c0).cache).fetched = false
    ∧ (Cache.loaderRun parse remote (Cache.loaderRun parse remote c0).cache).table
        = (Cache.loaderRun parse remote c0).table
    ∧ (Cache.loaderRun parse remote (Cache.loaderRun parse remote c0).cache).cache
        = (Cache.loaderRun parse remote c0).cache := by
  cases c0 <;> exact ⟨rfl, rfl, rfl⟩

/-- Claim C9: whenever the name-prefix match set of a `Units` lookup does
not have size exactly one, the lookup returns the NaN sentinel (modelled as
`none`) and emits a warning instead of raising an error. -/
theorem claim9_units_nan_sentinel (table : List (String × ℚ)) (county : String)
    (h : ((Units.matchedRows table county).map Prod.snd).length ≠ 1) :
    (Units.lookup table county).value = none
    ∧ (Units.lookup table county).warned = true := by
  unfold Units.lookup
  rw [if_pos (by simpa using h)]
  exact ⟨rfl, rfl⟩

/-- Witness for C9 at a concrete input: an empty state table matches no row
label, so the match set has size 0 and the lookup degrades to NaN plus a
warning. -/
theorem claim9_units_nan_sentinel_witness :
    ((Units.matchedRows [] "Alameda").map Prod.snd).length ≠ 1
    ∧ (Units.lookup [] "Alameda").value = none
    ∧ (Units.lookup [] "Alameda").warned = true :=
  ⟨by decide,
   (claim9_units_nan_sentinel [] "Alameda" (by decide)).1,
   (claim9_units_nan_sentinel [] "Alameda" (by decide)).2⟩

/-- Claim C10: when `county` is `None`, the `Industry` and `Agriculture`
constructors never reach the loadshape branches, so the result is the same
for every loadshape argument as for `loadshape=None`. -/
theorem claim10_loadshape_noninterference
    (tbl : List (String × String × ℚ × ℚ)) (st : Option String)
    (ls : Option Loadshape) :
    Industry.build tbl st none ls = Industry.build tbl st none none
    ∧ Agriculture.build tbl st none ls = Agriculture.build tbl st none none := by
  cases st <;> exact ⟨rfl, rfl⟩


/-- Length of `shape * k` in the Python sense. -/
theorem repeatList_length (l : List ℚ) (k : Nat) :
    (repeatList l k).length = k * l.length := by
  induction k with
  | zero => simp [repeatList]
  | succ k ih =>
    rw [repeatList, List.length_append, ih, Nat.succ_mul]
    omega

/-- Indexing into `shape * k` wraps around the shape length. -/
theorem repeatList_getElem? (l : List ℚ) (k i : Nat) (h : i < k * l.length) :
    (repeatList l k)[i]? = l[i % l.length]? := by
  induction k generalizing i with
  | zero => omega
  | succ k ih =>
    rw [repeatList]
    by_cases hi : i < l.length
    · rw [List.getElem?_append_left hi, Nat.mod_eq_of_lt hi]
    · push_neg at hi
      rw [List.getElem?_append_right hi]
      have hlt : i - l.length < k * l.length := by
        rw [Nat.succ_mul] at h
        omega
      rw [ih _ hlt]
      have hsplit : i = l.length + (i - l.length) := by omega
      have hm2 : i % l.length = (i - l.length) % l.length := by
        conv_lhs => rw [hsplit]
        rw [Nat.add_mod_left]
      rw [hm2]

/-- The tiled shape exactly fills the requested date range. -/
theorem tileShape_length (shape : List ℚ) (n : Nat) (hm : 0 < shape.length) :
    (tileShape shape n).length = n := by
  rw [tileShape, List.length_append, repeatList_length, List.length_take]
  have h1 : n % shape.length < shape.length := Nat.mod_lt _ hm
  have h2 : n / shape.length * shape.length + n % shape.length = n := by
    rw [Nat.mul_comm]
    exact Nat.div_add_mod n shape.length
  rw [min_eq_left (le_of_lt h1)]
  omega

/-- Indexing into the tiled shape is indexing into the shape modulo its
length. -/
theorem tileShape_getElem? (shape : List ℚ) (n i : Nat) (hm : 0 < shape.length)
    (hi : i < n) :
    (tileShape shape n)[i]? = shape[i % shape.length]? := by
  rw [tileShape]
  by_cases hc : i < (n / shape.length) * shape.length
  · rw [List.getElem?_append_left (by rw [repeatList_length]; exact hc)]
    exact repeatList_getElem? shape _ i hc
  · push_neg at hc
    rw [List.getElem?_append_right (by rw [repeatList_length]; exact hc)]
    rw [repeatList_length]
    have hmod : n / shape.length * shape.length + n % shape.length = n := by
      rw [Nat.mul_comm]
      exact Nat.div_add_mod n shape.length
    have hj : i - n / shape.length * shape.length < n % shape.length := by omega
    rw [List.getElem?_take, if_pos hj]
    have hi_eq : i = shape.length * (n / shape.length) + (i - n / shape.length * shape.length) := by
      rw [Nat.mul_comm shape.length (n / shape.length)]
      omega
    rw [show i % shape.length = (i - n / shape.length * shape.length) % shape.length by
      conv_lhs => rw [hi_eq]
      rw [Nat.mul_add_mod]]
    rw [Nat.mod_eq_of_lt (lt_trans hj (Nat.mod_lt _ hm))]

/-- Claim C5: for a dict loadshape over a date range of `n` intervals and a
nonempty shape of length `m`, the Industry and Agriculture rollout fills
the range exactly and assigns interval `i` the value `shape[i % m]` times
the county's scalar annual MW values. -/
theorem claim5_shape_tiling (shape : List ℚ) (n i : Nat) (nonelec elec : ℚ)
    (hm : 0 < shape.length) (hi : i < n) :
    (Industry.rolloutDict shape n nonelec elec).length = n
    ∧ (Agriculture.rolloutDict shape n nonelec elec).length = n
    ∧ (Industry.rolloutDict shape n nonelec elec)[i]? =
        (shape[i % shape.length]?).map (fun s => (s * nonelec, s * elec))
    ∧ (Agriculture.rolloutDict shape n nonelec elec)[i]? =
        (shape[i % shape.length]?).map (fun s => (s * nonelec, s * elec)) := by
  refine ⟨?_, ?_, ?_, ?_⟩
  · rw [Industry.rolloutDict, List.length_map, tileShape_length shape n hm]
  · rw [Agriculture.rolloutDict, List.length_map, tileShape_length shape n hm]
  · rw [Industry.rolloutDict, List.getElem?_map, tileShape_getElem? shape n i hm hi]
  · rw [Agriculture.rolloutDict, List.getElem?_map, tileShape_getElem? shape n i hm hi]

/-- Witness for C5 at the spec's concrete input: the 4-element shape
`[0.1, 0.2, 0.3, 0.2]` rolled out over 4 hourly steps, checked at the
third step. -/
theorem claim5_shape_tiling_witness :
    0 < ([1/10, 2/10, 3/10, 2/10] : List ℚ).length
    ∧ (2 : Nat) < 4
    ∧ (Industry.rolloutDict [1/10, 2/10, 3/10, 2/10] 4 100 10).length = 4
    ∧ (Agriculture.rolloutDict [1/10, 2/10, 3/10, 2/10] 4 100 10).length = 4
    ∧ (Industry.rolloutDict [1/10, 2/10, 3/10, 2/10] 4 100 10)[2]? =
        (([1/10, 2/10, 3/10, 2/10] : List ℚ)[2 % 4]?).map (fun s => (s * 100, s * 10))
    ∧ (Agriculture.rolloutDict [1/10, 2/10, 3/10, 2/10] 4 100 10)[2]? =
        (([1/10, 2/10, 3/10, 2/10] : List ℚ)[2 % 4]?).map (fun s => (s * 100, s * 10)) := by
  have h := claim5_shape_tiling [1/10, 2/10, 3/10, 2/10] 4 2 100 10 (by decide) (by decide)
  exact ⟨by decide, by decide, h.1, h.2.1, h.2.2.1, h.2.2.2⟩


/-- Column lookup on the final `Residential` row equals the lookup on the
row before the alphabetical reordering. -/
theorem res_output_lookup (collect : List (String × List String))
    (btypes : List String) (bdata : String → String → Option ℚ)
    (units : String → ℚ) (aU : ℚ)
    (hnd : ((Residential.outputUnsorted collect btypes bdata units aU).map Prod.fst).Nodup)
    (n : String) :
    lookupCol (Residential.output collect btypes bdata units aU) n
      = lookupCol (Residential.outputUnsorted collect btypes bdata units aU) n := by
  unfold Residential.output
  exact lookupCol_sortCols _ hnd n

/-- Column lookup on the final `Commercial` row equals the lookup on the
row before the alphabetical reordering. -/
theorem com_output_lookup (collect : List (String × List String))
    (btypes : List String) (bdata : String → String → ℚ) (bfa : String → ℚ)
    (aa : List (String × ℚ))
    (hnd : ((Commercial.outputUnsorted collect btypes bdata bfa aa).map Prod.fst).Nodup)
    (n : String) :
    lookupCol (Commercial.output collect btypes bdata bfa aa) n
      = lookupCol (Commercial.outputUnsorted collect btypes bdata bfa aa) n := by
  unfold Commercial.output
  exact lookupCol_sortCols _ hnd n

/-- The residential consolidation is linear, so it preserves an additive
relation among raw column sums of each building type. -/
theorem lookup_filter_ne {β : Type} (l : List (String × β)) (n bad : String)
    (hne : n ≠ bad) :
    List.lookup n (l.filter (fun r => r.1 != bad)) = List.lookup n l := by
  induction l with
  | nil => rfl
  | cons hd tl ih =>
    obtain ⟨k, w⟩ := hd
    by_cases hkb : k = bad
    · subst hkb
      rw [List.filter_cons, if_neg (by simp)]
      rw [List.lookup_cons, beq_eq_false_iff_ne.mpr (by simpa using hne)]
      exact ih
    · rw [List.filter_cons, if_pos (by simpa using hkb)]
      by_cases hnk : n = k
      · subst hnk
        rw [List.lookup_cons, beq_self_eq_true, List.lookup_cons, beq_self_eq_true]
      · rw [List.lookup_cons, beq_eq_false_iff_ne.mpr hnk,
          List.lookup_cons, beq_eq_false_iff_ne.mpr hnk]
        exact ih

theorem lookup_append_some {β : Type} (l e : List (String × β)) (n : String)
    (v : β) (h : List.lookup n l = some v) :
    List.lookup n (l ++ e) = some v := by
  induction l with
  | nil => cases h
  | cons hd tl ih =>
    obtain ⟨k, w⟩ := hd
    by_cases hnk : n = k
    · subst hnk
      rw [List.lookup_cons, beq_self_eq_true] at h
      rw [List.cons_append, List.lookup_cons, beq_self_eq_true]
      exact h
    · rw [List.lookup_cons, beq_eq_false_iff_ne.mpr hnk] at h
      rw [List.cons_append, List.lookup_cons, beq_eq_false_iff_ne.mpr hnk]
      exact ih h

/-- Reading a consolidated category column off the `Residential` row before
sorting returns the consolidated value of that category. -/
theorem res_lookup_consolidated (collect : List (String × List String))
    (btypes : List String) (bdata : String → String → Option ℚ)
    (units : String → ℚ) (aU : ℚ) (aggr nm : String) (cols : List String)
    (hname : aggr ++ "_MW" = nm)
    (hmem : (aggr, cols) ∈ collect)
    (hnd : ((Residential.consolidatedCols collect btypes bdata units aU).map Prod.fst).Nodup)
    (hne : nm ≠ "nonelec_dg_MW") :
    lookupCol (Residential.outputUnsorted collect btypes bdata units aU) nm
      = Residential.consolidated collect btypes bdata units aU cols := by
  subst hname
  unfold lookupCol Residential.outputUnsorted
  simp only []
  rw [lookup_filter_ne _ _ _ hne]
  rw [lookup_append_some _ _ _ _ (lookup_some_of_mem_nodup _ _ _ hnd
    (List.mem_map.mpr ⟨(aggr, cols), hmem, rfl⟩))]
  rfl

/-- Reading a consolidated category column off the `Commercial` row before
sorting returns the consolidated value of that category. -/
theorem com_lookup_consolidated (collect : List (String × List String))
    (btypes : List String) (bdata : String → String → ℚ) (bfa : String → ℚ)
    (aa : List (String × ℚ)) (aggr nm : String) (cols : List String)
    (hname : aggr ++ "_MW" = nm)
    (hmem : (aggr, cols) ∈ collect)
    (hnd : ((Commercial.consolidatedCols collect btypes bdata bfa aa).map Prod.fst).Nodup)
    (hne : nm ≠ "nonelec_dg_MW") :
    lookupCol (Commercial.outputUnsorted collect btypes bdata bfa aa) nm
      = Commercial.consolidated collect btypes bdata bfa aa cols := by
  subst hname
  unfold lookupCol Commercial.outputUnsorted
  simp only []
  rw [lookup_filter_ne _ _ _ hne]
  rw [lookup_append_some _ _ _ _ (lookup_some_of_mem_nodup _ _ _ hnd
    (List.mem_map.mpr ⟨(aggr, cols), hmem, rfl⟩))]
  rfl

/-- The consolidated residential column names are distinct for the default
`COLLECT`. -/
theorem res_keys_nodup (bdata : String → String → Option ℚ)
    (units : String → ℚ) (aU : ℚ) (btypes : List String) :
    ((Residential.consolidatedCols Residential.COLLECT btypes bdata units aU).map
      Prod.fst).Nodup := by
  unfold Residential.consolidatedCols
  rw [List.map_map]
  have e : Residential.COLLECT.map
      (Prod.fst ∘ fun ac => (ac.1 ++ "_MW", Residential.consolidated Residential.COLLECT btypes bdata units aU ac.2))
      = ["elec_baseload_MW", "elec_cooling_MW", "elec_heating_MW", "elec_dg_MW",
         "elec_total_MW", "nonelec_baseload_MW", "nonelec_cooling_MW",
         "nonelec_heating_MW", "nonelec_dg_MW", "nonelec_total_MW"] := rfl
  rw [e]
  decide

/-- The consolidated commercial column names are distinct for the default
`COLLECT`. -/
theorem com_keys_nodup (bdata : String → String → ℚ) (bfa : String → ℚ)
    (aa : List (String × ℚ)) (btypes : List String) :
    ((Commercial.consolidatedCols Commercial.COLLECT btypes bdata bfa aa).map
      Prod.fst).Nodup := by
  unfold Commercial.consolidatedCols
  rw [List.map_map]
  have e : Commercial.COLLECT.map
      (Prod.fst ∘ fun ac => (ac.1 ++ "_MW", Commercial.consolidated Commercial.COLLECT btypes bdata bfa aa ac.2))
      = ["elec_baseload_MW", "elec_cooling_MW", "elec_heating_MW", "elec_dg_MW",
         "elec_total_MW", "nonelec_baseload_MW", "nonelec_cooling_MW",
         "nonelec_heating_MW", "nonelec_dg_MW", "nonelec_total_MW"] := rfl
  rw [e]
  decide

theorem res_consolidated_add3 (collect : List (String × List String))
    (btypes : List String) (bdata : String → String → Option ℚ)
    (units : String → ℚ) (aU : ℚ) (c1 c2 c3 c4 : List String)
    (H : ∀ b ∈ btypes,
      sumSkipNA c1 (bdata b) + sumSkipNA c2 (bdata b) + sumSkipNA c3 (bdata b)
        = sumSkipNA c4 (bdata b)) :
    Residential.consolidated collect btypes bdata units aU c1
      + Residential.consolidated collect btypes bdata units aU c2
      + Residential.consolidated collect btypes bdata units aU c3
      = Residential.consolidated collect btypes bdata units aU c4 := by
  unfold Residential.consolidated
  apply list_sum_add3
  intro b hb
  unfold Residential.contrib Residential.catValue
  rw [← H b hb]
  ring

/-- The commercial consolidation is linear in the same way. -/
theorem com_consolidated_add3 (collect : List (String × List String))
    (btypes : List String) (bdata : String → String → ℚ) (bfa : String → ℚ)
    (aa : List (String × ℚ)) (c1 c2 c3 c4 : List String)
    (H : ∀ b ∈ btypes,
      (c1.map (bdata b)).sum + (c2.map (bdata b)).sum + (c3.map (bdata b)).sum
        = (c4.map (bdata b)).sum) :
    Commercial.consolidated collect btypes bdata bfa aa c1
      + Commercial.consolidated collect btypes bdata bfa aa c2
      + Commercial.consolidated collect btypes bdata bfa aa c3
      = Commercial.consolidated collect btypes bdata bfa aa c4 := by
  unfold Commercial.consolidated
  apply list_sum_add3
  intro b hb
  unfold Commercial.contrib Commercial.catValue
  rw [← H b hb]
  ring

/-- Claim C2: if each building type's raw columns satisfy
`baseload + cooling + heating = total` for a carrier, then the consolidated
sector row satisfies `X_baseload_MW + X_cooling_MW + X_heating_MW =
X_total_MW` for that carrier: the weighted consolidation preserves the
additive relation of the raw input (exactly over ℚ, hence also after any
fixed rounding). -/
theorem claim2_category_sum_invariant
    (bdataR : String → String → Option ℚ) (unitsR : String → ℚ) (aU : ℚ)
    (bdataC : String → String → ℚ) (bfa : String → ℚ) (aa : List (String × ℚ))
    (hR : ∀ b ∈ RESstock.buildingTypeCodes,
      (sumSkipNA (Residential.collectCols "elec_baseload") (bdataR b)
          + sumSkipNA (Residential.collectCols "elec_cooling") (bdataR b)
          + sumSkipNA (Residential.collectCols "elec_heating") (bdataR b)
          = sumSkipNA (Residential.collectCols "elec_total") (bdataR b))
      ∧ (sumSkipNA (Residential.collectCols "nonelec_baseload") (bdataR b)
          + sumSkipNA (Residential.collectCols "nonelec_cooling") (bdataR b)
          + sumSkipNA (Residential.collectCols "nonelec_heating") (bdataR b)
          = sumSkipNA (Residential.collectCols "nonelec_total") (bdataR b)))
    (hC : ∀ b ∈ COMstock.buildingTypeCodes,
      (((Commercial.collectCols "elec_baseload").map (bdataC b)).sum
          + ((Commercial.collectCols "elec_cooling").map (bdataC b)).sum
          + ((Commercial.collectCols "elec_heating").map (bdataC b)).sum
          = ((Commercial.collectCols "elec_total").map (bdataC b)).sum)
      ∧ (((Commercial.collectCols "nonelec_baseload").map (bdataC b)).sum
          + ((Commercial.collectCols "nonelec_cooling").map (bdataC b)).sum
          + ((Commercial.collectCols "nonelec_heating").map (bdataC b)).sum
          = ((Commercial.collectCols "nonelec_total").map (bdataC b)).sum)) :
    (lookupCol (Residential.output Residential.COLLECT RESstock.buildingTypeCodes bdataR unitsR aU) "elec_baseload_MW"
      + lookupCol (Residential.output Residential.COLLECT RESstock.buildingTypeCodes bdataR unitsR aU) "elec_cooling_MW"
      + lookupCol (Residential.output Residential.COLLECT RESstock.buildingTypeCodes bdataR unitsR aU) "elec_heating_MW"
      = lookupCol (Residential.output Residential.COLLECT RESstock.buildingTypeCodes bdataR unitsR aU) "elec_total_MW")
    ∧ (lookupCol (Residential.output Residential.COLLECT RESstock.buildingTypeCodes bdataR unitsR aU) "nonelec_baseload_MW"
      + lookupCol (Residential.output Residential.COLLECT RESstock.buildingTypeCodes bdataR unitsR aU) "nonelec_cooling_MW"
      + lookupCol (Residential.output Residential.COLLECT RESstock.buildingTypeCodes bdataR unitsR aU) "nonelec_heating_MW"
      = lookupCol (Residential.output Residential.COLLECT RESstock.buildingTypeCodes bdataR unitsR aU) "nonelec_total_MW")
    ∧ (lookupCol (Commercial.output Commercial.COLLECT COMstock.buildingTypeCodes bdataC bfa aa) "elec_baseload_MW"
      + lookupCol (Commercial.output Commercial.COLLECT COMstock.buildingTypeCodes bdataC bfa aa) "elec_cooling_MW"
      + lookupCol (Commercial.output Commercial.COLLECT COMstock.buildingTypeCodes bdataC bfa aa) "elec_heating_MW"
      = lookupCol (Commercial.output Commercial.COLLECT COMstock.buildingTypeCodes bdataC bfa aa) "elec_total_MW")
    ∧ (lookupCol (Commercial.output Commercial.COLLECT COMstock.buildingTypeCodes bdataC bfa aa) "nonelec_baseload_MW"
      + lookupCol (Commercial.output Commercial.COLLECT COMstock.buildingTypeCodes bdataC bfa aa) "nonelec_cooling_MW"
      + lookupCol (Commercial.output Commercial.COLLECT COMstock.buildingTypeCodes bdataC bfa aa) "nonelec_heating_MW"
      = lookupCol (Commercial.output Commercial.COLLECT COMstock.buildingTypeCodes bdataC bfa aa) "nonelec_total_MW") := by
  have hndR : ((Residential.outputUnsorted Residential.COLLECT RESstock.buildingTypeCodes bdataR unitsR aU).map Prod.fst).Nodup := by
    have e : (Residential.outputUnsorted Residential.COLLECT RESstock.buildingTypeCodes bdataR unitsR aU).map Prod.fst
        = ["elec_baseload_MW", "elec_cooling_MW", "elec_heating_MW", "elec_dg_MW",
           "elec_total_MW", "nonelec_baseload_MW", "nonelec_cooling_MW",
           "nonelec_heating_MW", "nonelec_total_MW", "elec_net_MW"] := rfl
    rw [e]
    decide
  have hndC : ((Commercial.outputUnsorted Commercial.COLLECT COMstock.buildingTypeCodes bdataC bfa aa).map Prod.fst).Nodup := by
    have e : (Commercial.outputUnsorted Commercial.COLLECT COMstock.buildingTypeCodes bdataC bfa aa).map Prod.fst
        = ["elec_baseload_MW", "elec_cooling_MW", "elec_heating_MW", "elec_dg_MW",
           "elec_total_MW", "nonelec_baseload_MW", "nonelec_cooling_MW",
           "nonelec_heating_MW", "nonelec_total_MW", "elec_net_MW"] := rfl
    rw [e]
    decide
  have hndK := res_keys_nodup bdataR unitsR aU RESstock.buildingTypeCodes
  have hndKC := com_keys_nodup bdataC bfa aa COMstock.buildingTypeCodes
  refine ⟨?_, ?_, ?_, ?_⟩
  · rw [res_output_lookup _ _ _ _ _ hndR, res_output_lookup _ _ _ _ _ hndR,
      res_output_lookup _ _ _ _ _ hndR, res_output_lookup _ _ _ _ _ hndR]
    rw [res_lookup_consolidated _ _ _ _ _ "elec_baseload" "elec_baseload_MW"
        (Residential.collectCols "elec_baseload") rfl (by decide) hndK (by decide),
      res_lookup_consolidated _ _ _ _ _ "elec_cooling" "elec_cooling_MW"
        (Residential.collectCols "elec_cooling") rfl (by decide) hndK (by decide),
      res_lookup_consolidated _ _ _ _ _ "elec_heating" "elec_heating_MW"
        (Residential.collectCols "elec_heating") rfl (by decide) hndK (by decide),
      res_lookup_consolidated _ _ _ _ _ "elec_total" "elec_total_MW"
        (Residential.collectCols "elec_total") rfl (by decide) hndK (by decide)]
    exact res_consolidated_add3 _ _ _ _ _ _ _ _ _ (fun b hb => (hR b hb).1)
  · rw [res_output_lookup _ _ _ _ _ hndR, res_output_lookup _ _ _ _ _ hndR,
      res_output_lookup _ _ _ _ _ hndR, res_output_lookup _ _ _ _ _ hndR]
    rw [res_lookup_consolidated _ _ _ _ _ "nonelec_baseload" "nonelec_baseload_MW"
        (Residential.collectCols "nonelec_baseload") rfl (by decide) hndK (by decide),
      res_lookup_consolidated _ _ _ _ _ "nonelec_cooling" "nonelec_cooling_MW"
        (Residential.collectCols "nonelec_cooling") rfl (by decide) hndK (by decide),
      res_lookup_consolidated _ _ _ _ _ "nonelec_heating" "nonelec_heating_MW"
        (Residential.collectCols "nonelec_heating") rfl (by decide) hndK (by decide),
      res_lookup_consolidated _ _ _ _ _ "nonelec_total" "nonelec_total_MW"
        (Residential.collectCols "nonelec_total") rfl (by decide) hndK (by decide)]
    exact res_consolidated_add3 _ _ _ _ _ _ _ _ _ (fun b hb => (hR b hb).2)
  · rw [com_output_lookup _ _ _ _ _ hndC, com_output_lookup _ _ _ _ _ hndC,
      com_output_lookup _ _ _ _ _ hndC, com_output_lookup _ _ _ _ _ hndC]
    rw [com_lookup_consolidated _ _ _ _ _ "elec_baseload" "elec_baseload_MW"
        (Commercial.collectCols "elec_baseload") rfl (by decide) hndKC (by decide),
      com_lookup_consolidated _ _ _ _ _ "elec_cooling" "elec_cooling_MW"
        (Commercial.collectCols "elec_cooling") rfl (by decide) hndKC (by decide),
      com_lookup_consolidated _ _ _ _ _ "elec_heating" "elec_heating_MW"
        (Commercial.collectCols "elec_heating") rfl (by decide) hndKC (by decide),
      com_lookup_consolidated _ _ _ _ _ "elec_total" "elec_total_MW"
        (Commercial.collectCols "elec_total") rfl (by decide) hndKC (by decide)]
    exact com_consolidated_add3 _ _ _ _ _ _ _ _ _ (fun b hb => (hC b hb).1)
  · rw [com_output_lookup _ _ _ _ _ hndC, com_output_lookup _ _ _ _ _ hndC,
      com_output_lookup _ _ _ _ _ hndC, com_output_lookup _ _ _ _ _ hndC]
    rw [com_lookup_consolidated _ _ _ _ _ "nonelec_baseload" "nonelec_baseload_MW"
        (Commercial.collectCols "nonelec_baseload") rfl (by decide) hndKC (by decide),
      com_lookup_consolidated _ _ _ _ _ "nonelec_cooling" "nonelec_cooling_MW"
        (Commercial.collectCols "nonelec_cooling") rfl (by decide) hndKC (by decide),
      com_lookup_consolidated _ _ _ _ _ "nonelec_heating" "nonelec_heating_MW"
        (Commercial.collectCols "nonelec_heating") rfl (by decide) hndKC (by decide),
      com_lookup_consolidated _ _ _ _ _ "nonelec_total" "nonelec_total_MW"
        (Commercial.collectCols "nonelec_total") rfl (by decide) hndKC (by decide)]
    exact com_consolidated_add3 _ _ _ _ _ _ _ _ _ (fun b hb => (hC b hb).2)


/-- Witness for C2 at a concrete input: the all-zero degraded tables (the
zero-stock fallback) satisfy the raw additivity hypothesis, and the
consolidated row then satisfies the category sum invariant. -/
theorem claim2_category_sum_invariant_witness :
    (∀ b ∈ RESstock.buildingTypeCodes,
      (sumSkipNA (Residential.collectCols "elec_baseload") ((fun _ _ => some 0 : String → String → Option ℚ) b)
          + sumSkipNA (Residential.collectCols "elec_cooling") ((fun _ _ => some 0 : String → String → Option ℚ) b)
          + sumSkipNA (Residential.collectCols "elec_heating") ((fun _ _ => some 0 : String → String → Option ℚ) b)
          = sumSkipNA (Residential.collectCols "elec_total") ((fun _ _ => some 0 : String → String → Option ℚ) b))
      ∧ (sumSkipNA (Residential.collectCols "nonelec_baseload") ((fun _ _ => some 0 : String → String → Option ℚ) b)
          + sumSkipNA (Residential.collectCols "nonelec_cooling") ((fun _ _ => some 0 : String → String → Option ℚ) b)
          + sumSkipNA (Residential.collectCols "nonelec_heating") ((fun _ _ => some 0 : String → String → Option ℚ) b)
          = sumSkipNA (Residential.collectCols "nonelec_total") ((fun _ _ => some 0 : String → String → Option ℚ) b)))
    ∧ (∀ b ∈ COMstock.buildingTypeCodes,
      (((Commercial.collectCols "elec_baseload").map ((fun _ _ => 0 : String → String → ℚ) b)).sum
          + ((Commercial.collectCols "elec_cooling").map ((fun _ _ => 0 : String → String → ℚ) b)).sum
          + ((Commercial.collectCols "elec_heating").map ((fun _ _ => 0 : String → String → ℚ) b)).sum
          = ((Commercial.collectCols "elec_total").map ((fun _ _ => 0 : String → String → ℚ) b)).sum)
      ∧ (((Commercial.collectCols "nonelec_baseload").map ((fun _ _ => 0 : String → String → ℚ) b)).sum
          + ((Commercial.collectCols "nonelec_cooling").map ((fun _ _ => 0 : String → String → ℚ) b)).sum
          + ((Commercial.collectCols "nonelec_heating").map ((fun _ _ => 0 : String → String → ℚ) b)).sum
          = ((Commercial.collectCols "nonelec_total").map ((fun _ _ => 0 : String → String → ℚ) b)).sum))
    ∧ (lookupCol (Residential.output Residential.COLLECT RESstock.buildingTypeCodes (fun _ _ => some 0) (fun _ => 1) 1) "elec_baseload_MW"
      + lookupCol (Residential.output Residential.COLLECT RESstock.buildingTypeCodes (fun _ _ => some 0) (fun _ => 1) 1) "elec_cooling_MW"
      + lookupCol (Residential.output Residential.COLLECT RESstock.buildingTypeCodes (fun _ _ => some 0) (fun _ => 1) 1) "elec_heating_MW"
      = lookupCol (Residential.output Residential.COLLECT RESstock.buildingTypeCodes (fun _ _ => some 0) (fun _ => 1) 1) "elec_total_MW")
    ∧ (lookupCol (Commercial.output Commercial.COLLECT COMstock.buildingTypeCodes (fun _ _ => 0) (fun _ => 1) []) "nonelec_baseload_MW"
      + lookupCol (Commercial.output Commercial.COLLECT COMstock.buildingTypeCodes (fun _ _ => 0) (fun _ => 1) []) "nonelec_cooling_MW"
      + lookupCol (Commercial.output Commercial.COLLECT COMstock.buildingTypeCodes (fun _ _ => 0) (fun _ => 1) []) "nonelec_heating_MW"
      = lookupCol (Commercial.output Commercial.COLLECT COMstock.buildingTypeCodes (fun _ _ => 0) (fun _ => 1) []) "nonelec_total_MW") := by
  have h1 : ∀ b ∈ RESstock.buildingTypeCodes,
      (sumSkipNA (Residential.collectCols "elec_baseload") ((fun _ _ => some 0 : String → String → Option ℚ) b)
          + sumSkipNA (Residential.collectCols "elec_cooling") ((fun _ _ => some 0 : String → String → Option ℚ) b)
          + sumSkipNA (Residential.collectCols "elec_heating") ((fun _ _ => some 0 : String → String → Option ℚ) b)
          = sumSkipNA (Residential.collectCols "elec_total") ((fun _ _ => some 0 : String → String → Option ℚ) b))
      ∧ (sumSkipNA (Residential.collectCols "nonelec_baseload") ((fun _ _ => some 0 : String → String → Option ℚ) b)
          + sumSkipNA (Residential.collectCols "nonelec_cooling") ((fun _ _ => some 0 : String → String → Option ℚ) b)
          + sumSkipNA (Residential.collectCols "nonelec_heating") ((fun _ _ => some 0 : String → String → Option ℚ) b)
          = sumSkipNA (Residential.collectCols "nonelec_total") ((fun _ _ => some 0 : String → String → Option ℚ) b)) := by
    intro b hb
    constructor <;> simp [sumSkipNA, Residential.collectCols, Residential.COLLECT]
  have h2 : ∀ b ∈ COMstock.buildingTypeCodes,
      (((Commercial.collectCols "elec_baseload").map ((fun _ _ => 0 : String → String → ℚ) b)).sum
          + ((Commercial.collectCols "elec_cooling").map ((fun _ _ => 0 : String → String → ℚ) b)).sum
          + ((Commercial.collectCols "elec_heating").map ((fun _ _ => 0 : String → String → ℚ) b)).sum
          = ((Commercial.collectCols "elec_total").map ((fun _ _ => 0 : String → String → ℚ) b)).sum)
      ∧ (((Commercial.collectCols "nonelec_baseload").map ((fun _ _ => 0 : String → String → ℚ) b)).sum
          + ((Commercial.collectCols "nonelec_cooling").map ((fun _ _ => 0 : String → String → ℚ) b)).sum
          + ((Commercial.collectCols "nonelec_heating").map ((fun _ _ => 0 : String → String → ℚ) b)).sum
          = ((Commercial.collectCols "nonelec_total").map ((fun _ _ => 0 : String → String → ℚ) b)).sum) := by
    intro b hb
    constructor <;> simp [Commercial.collectCols, Commercial.COLLECT]
  have h3 := claim2_category_sum_invariant (fun _ _ => some 0) (fun _ => 1) 1
    (fun _ _ => 0) (fun _ => 1) [] h1 h2
  exact ⟨h1, h2, h3.1, h3.2.2.2⟩

/-- Counterexample for C4 as stated: at a county where every building
type's stock driver is zero (reachable when every building type hits the
zero-stock download fallback), `total_units`/`total_area` are zero and the
numpy weight is `0.0/0.0` = NaN; the zero-stock building type's scaled
category columns are then NaN, not zero, so the contribution is not
all-zero even though that building type's own driver is zero. -/
theorem claim4_zero_total_counterexample :
    Residential.contribF Residential.COLLECT RESstock.buildingTypeCodes
      (fun _ _ => RESstock.value 0 0) (fun _ => 0) 1 "RSD"
      (Residential.collectCols "elec_baseload") = none
    ∧ Residential.contribF Residential.COLLECT RESstock.buildingTypeCodes
      (fun _ _ => RESstock.value 0 0) (fun _ => 0) 1 "RSD"
      (Residential.collectCols "elec_baseload") ≠ some 0
    ∧ Commercial.contribF Commercial.COLLECT COMstock.buildingTypeCodes
      (fun _ _ => 0) (fun _ => 0) [] "CLO"
      (Commercial.collectCols "elec_baseload") = none
    ∧ ((fun _ => (0 : ℚ)) "RSD" = 0) := by
  have htU : Residential.totalUnits Residential.COLLECT RESstock.buildingTypeCodes
      (fun _ => (0 : ℚ)) = 0 := by
    simp [Residential.totalUnits]
  have htA : Commercial.totalArea Commercial.COLLECT COMstock.buildingTypeCodes
      (fun _ => (0 : ℚ)) = 0 := by
    simp [Commercial.totalArea]
  have hres : Residential.contribF Residential.COLLECT RESstock.buildingTypeCodes
      (fun _ _ => RESstock.value 0 0) (fun _ => 0) 1 "RSD"
      (Residential.collectCols "elec_baseload") = none := by
    unfold Residential.contribF Residential.weightF
    rw [htU, if_pos rfl]
    rfl
  refine ⟨hres, ?_, ?_, rfl⟩
  · rw [hres]
    simp
  · unfold Commercial.contribF Commercial.weightF
    rw [htA, if_pos rfl]
    rfl

/-- Claim C4 as amended: a building type with a zero stock driver
contributes zero to every consolidated category column, with no error,
provided the sector's total stock driver is nonzero: the COMstock loader's
zero-floor-area guard returns zero cells, the RESstock fallback's NaN
cells are skipped by the pandas sum so the building type's category
columns are zero even before weighting, and the (finite) scaling
multiplier collapses to zero for both sectors.  When the total driver is
zero the weight is numpy NaN and the contribution columns are NaN rather
than zero, still without an error. -/
theorem claim4_zero_stock
    (collectR : List (String × List String)) (btypesR : List String)
    (collectC : List (String × List String)) (btypesC : List String)
    (bdataR : String → String → Option ℚ) (unitsR : String → ℚ) (aU : ℚ)
    (bdataC : String → String → ℚ) (bfa : String → ℚ) (aa : List (String × ℚ))
    (b : String) (raw : String → ℚ)
    (hu : unitsR b = 0) (hf : bfa b = 0)
    (htU : Residential.totalUnits collectR btypesR unitsR ≠ 0)
    (htA : Commercial.totalArea collectC btypesC bfa ≠ 0) :
    (∀ cols, Residential.contribF collectR btypesR bdataR unitsR aU b cols = some 0)
    ∧ (∀ x, COMstock.value 0 x = 0)
    ∧ (∀ cols, Commercial.contribF collectC btypesC bdataC bfa aa b cols = some 0)
    ∧ (∀ cols, Residential.catValue cols (fun c => RESstock.value 0 (raw c)) = 0) := by
  refine ⟨?_, ?_, ?_, ?_⟩
  · intro cols
    unfold Residential.contribF Residential.weightF
    rw [if_neg htU]
    simp [hu]
  · intro x
    unfold COMstock.value
    rw [if_pos rfl]
  · intro cols
    unfold Commercial.contribF Commercial.weightF
    rw [if_neg htA]
    simp [hf]
  · intro cols
    unfold Residential.catValue sumSkipNA RESstock.value
    simp

/-- Witness for the amended C4 at a concrete input: the `RSD` building
type has a zero driver while the other building types have one unit (or
square foot) each, so the totals are nonzero and the zero-stock type
contributes zero in every category. -/
theorem claim4_zero_stock_witness :
    ((fun s => if s = "RSD" then (0 : ℚ) else 1) "RSD" = 0)
    ∧ Residential.totalUnits Residential.COLLECT RESstock.buildingTypeCodes
        (fun s => if s = "RSD" then (0 : ℚ) else 1) ≠ 0
    ∧ Commercial.totalArea Commercial.COLLECT COMstock.buildingTypeCodes
        (fun s => if s = "RSD" then (0 : ℚ) else 1) ≠ 0
    ∧ ((∀ cols, Residential.contribF Residential.COLLECT RESstock.buildingTypeCodes
          (fun _ _ => some 0) (fun s => if s = "RSD" then (0 : ℚ) else 1) 1 "RSD" cols = some 0)
      ∧ (∀ x, COMstock.value 0 x = 0)
      ∧ (∀ cols, Commercial.contribF Commercial.COLLECT COMstock.buildingTypeCodes
          (fun _ _ => 0) (fun s => if s = "RSD" then (0 : ℚ) else 1) [] "RSD" cols = some 0)
      ∧ (∀ cols, Residential.catValue cols (fun c => RESstock.value 0 ((fun _ => 0) c)) = 0)) := by
  have h0 : (fun s => if s = "RSD" then (0 : ℚ) else 1) "RSD" = 0 := by
    simp
  have htU : Residential.totalUnits Residential.COLLECT RESstock.buildingTypeCodes
      (fun s => if s = "RSD" then (0 : ℚ) else 1) ≠ 0 := by
    simp +decide [Residential.totalUnits, Residential.COLLECT,
      RESstock.buildingTypeCodes, RESstock.BUILDING_TYPES]
    norm_num
  have htA : Commercial.totalArea Commercial.COLLECT COMstock.buildingTypeCodes
      (fun s => if s = "RSD" then (0 : ℚ) else 1) ≠ 0 := by
    simp +decide [Commercial.totalArea, Commercial.COLLECT,
      COMstock.buildingTypeCodes, COMstock.BUILDING_TYPES]
    norm_num
  exact ⟨h0, htU, htA,
    claim4_zero_stock Residential.COLLECT RESstock.buildingTypeCodes
      Commercial.COLLECT COMstock.buildingTypeCodes
      (fun _ _ => some 0) (fun s => if s = "RSD" then (0 : ℚ) else 1) 1
      (fun _ _ => 0) (fun s => if s = "RSD" then (0 : ℚ) else 1) [] "RSD"
      (fun _ => 0) h0 h0 htU htA⟩


/-- Splitting the raw index at the year boundary. -/
theorem rawIndex_split (o H : Nat) (h : o ≤ H) :
    RESstock.rawIndex o H = List.range' o (H - o) ++ List.range' H o := by
  unfold RESstock.rawIndex
  have e := List.range'_append o (H - o) o 1
  rw [show o + 1 * (H - o) = H by omega, show o + (H - o) = H by omega] at e
  exact e.symm

/-- The year fold leaves in-year hours unchanged and shifts next-year hours
back by one year, producing a permutation of the full hourly year. -/
theorem map_foldYear_rawIndex (o H : Nat) (h : o ≤ H) :
    ((RESstock.rawIndex o H).map (foldYear H)).Perm (List.range H) := by
  rw [rawIndex_split o H h, List.map_append]
  have e1 : (List.range' o (H - o)).map (foldYear H) = List.range' o (H - o) := by
    rw [List.map_congr_left (g := id) ?_, List.map_id]
    intro a ha
    rcases List.mem_range'.mp ha with ⟨i, hi, rfl⟩
    unfold foldYear
    rw [if_pos (by omega)]
    rfl
  have e2 : (List.range' H o).map (foldYear H) = List.range' 0 o := by
    rw [List.range'_eq_map_range H o, List.map_map, List.range'_eq_map_range 0 o]
    apply List.map_congr_left
    intro a ha
    have haa : a < o := List.mem_range.mp ha
    show foldYear H (H + a) = 0 + a
    unfold foldYear
    rw [if_neg (by omega)]
    omega
  rw [e1, e2]
  have e3 : List.range' 0 o ++ List.range' o (H - o) = List.range H := by
    have e := List.range'_append 0 o (H - o) 1
    rw [show 0 + 1 * o = o by omega, show H - o + o = H by omega] at e
    rw [e, List.range_eq_range']
  rw [← e3]
  exact List.perm_append_comm

/-- `sort_index()` on a permutation of `range H` returns `range H`. -/
theorem sortIndex_eq_range (l : List Nat) (H : Nat) (hp : l.Perm (List.range H)) :
    sortIndex l = List.range H := by
  unfold sortIndex
  apply List.eq_of_perm_of_sorted (r := fun a b : Nat => a ≤ b)
  · exact (List.perm_insertionSort _ l).trans hp
  · exact List.sorted_insertionSort _ l
  · exact (List.sorted_lt_range H).imp le_of_lt

/-- Claim C3: after the year-wraparound fold and the chronological sort,
the loader's full-year index is exactly the `H` hours of the reference year
(8760 for 2018; `H` per target year), in order, with no duplicates, and
re-applying the fold-and-sort (as `Residential.__init__` does) leaves it
unchanged. -/
theorem claim3_year_fold_completeness (o H : Nat) (h : o ≤ H) :
    RESstock.foldedIndex o H = List.range H
    ∧ (RESstock.foldedIndex o H).length = H
    ∧ (RESstock.foldedIndex o H).Nodup
    ∧ List.Sorted (fun a b : Nat => a ≤ b) (RESstock.foldedIndex o H)
    ∧ (∀ t, t ∈ RESstock.foldedIndex o H ↔ t < H)
    ∧ sortIndex ((RESstock.foldedIndex o H).map (foldYear H)) = RESstock.foldedIndex o H := by
  have he : RESstock.foldedIndex o H = List.range H :=
    sortIndex_eq_range _ H (map_foldYear_rawIndex o H h)
  have hmapid : (List.range H).map (foldYear H) = List.range H := by
    rw [List.map_congr_left (g := id) ?_, List.map_id]
    intro a ha
    unfold foldYear
    rw [if_pos (List.mem_range.mp ha)]
    rfl
  refine ⟨he, ?_, ?_, ?_, ?_, ?_⟩
  · rw [he, List.length_range]
  · rw [he]
    exact List.nodup_range H
  · rw [he]
    exact (List.sorted_lt_range H).imp le_of_lt
  · intro t
    rw [he, List.mem_range]
  · rw [he, hmapid, sortIndex_eq_range _ H (List.Perm.refl _)]

/-- Witness for C3 at the real parameters: the cached series starts 5 hours
into 2018 and covers the 8760 hours of a non-leap year. -/
theorem claim3_year_fold_completeness_witness :
    (5 : Nat) ≤ 8760
    ∧ RESstock.foldedIndex 5 8760 = List.range 8760
    ∧ (RESstock.foldedIndex 5 8760).length = 8760 := by
  have h := claim3_year_fold_completeness 5 8760 (by decide)
  exact ⟨by decide, h.1, h.2.1⟩


/-- Every code of a floor-area category's split produces its row in
`split_areas`, carrying the equal-division floor area and the stored
fraction (commercial.py lines 138-143). -/
theorem mem_splitRows (aa : List (String × ℚ)) (bts : String) (area : ℚ)
    (bt : String) (h1 : (bts, area) ∈ aa) (h2 : bt ∈ splitCodes bts) :
    (⟨if bt = "" then "OTH" else bt,
      area / ((splitCodes bts).length : ℚ),
      bts,
      area / (aa.map Prod.snd).sum⟩ : Commercial.SplitRow) ∈ Commercial.splitRows aa := by
  unfold Commercial.splitRows
  exact List.mem_flatMap.mpr ⟨(bts, area), h1, List.mem_map.mpr ⟨bt, h2, rfl⟩⟩

/-- Claim C6 as amended: when a floor-area category fans out across several
building-type codes, the weighting share looked up for each code is always
the category's floor area divided by the number of codes in the split; the
per-code floor-area fraction is computed and stored in the split table but
the weighting multiplier of commercial.py line 172 never uses it. -/
theorem claim6_split_share_amended (aa : List (String × ℚ)) (bts : String)
    (area : ℚ) (bt : String)
    (h1 : (bts, area) ∈ aa) (h2 : bt ∈ splitCodes bts) (h3 : bt ≠ "")
    (hnd : ((Commercial.splitRows aa).map Commercial.SplitRow.code).Nodup) :
    Commercial.splitShare aa bt = area / ((splitCodes bts).length : ℚ)
    ∧ Commercial.splitFraction aa bt = area / (aa.map Prod.snd).sum
    ∧ ∀ (bfa : String → ℚ) (tA : ℚ),
        Commercial.weight bfa tA aa bt
          = bfa bt / tA * (area / ((splitCodes bts).length : ℚ)) := by
  have hfind := find?_key_unique Commercial.SplitRow.code (Commercial.splitRows aa)
    (⟨if bt = "" then "OTH" else bt,
      area / ((splitCodes bts).length : ℚ),
      bts,
      area / (aa.map Prod.snd).sum⟩ : Commercial.SplitRow) bt
    (by simp [h3]) hnd (mem_splitRows aa bts area bt h1 h2)
  have hshare : Commercial.splitShare aa bt = area / ((splitCodes bts).length : ℚ) := by
    unfold Commercial.splitShare
    rw [hfind]
    rfl
  refine ⟨hshare, ?_, ?_⟩
  · unfold Commercial.splitFraction
    rw [hfind]
    rfl
  · intro bfa tA
    unfold Commercial.weight
    rw [hshare]

/-- Witness for the amended C6 at a concrete input: the `office` category
`"CSO|CMO|CLO"` with 300 square feet in a county whose other category
(`"CMW"`) has 100 square feet; the `CSO` share is `300/3`. -/
theorem claim6_split_share_amended_witness :
    ("CSO|CMO|CLO", (300 : ℚ)) ∈ [("CSO|CMO|CLO", (300 : ℚ)), ("CMW", 100)]
    ∧ "CSO" ∈ splitCodes "CSO|CMO|CLO"
    ∧ "CSO" ≠ ""
    ∧ ((Commercial.splitRows [("CSO|CMO|CLO", (300 : ℚ)), ("CMW", 100)]).map
        Commercial.SplitRow.code).Nodup
    ∧ Commercial.splitShare [("CSO|CMO|CLO", (300 : ℚ)), ("CMW", 100)] "CSO"
        = 300 / ((splitCodes "CSO|CMO|CLO").length : ℚ) := by
  have hnd : ((Commercial.splitRows [("CSO|CMO|CLO", (300 : ℚ)), ("CMW", 100)]).map
      Commercial.SplitRow.code).Nodup := by
    have e : (Commercial.splitRows [("CSO|CMO|CLO", (300 : ℚ)), ("CMW", 100)]).map
        Commercial.SplitRow.code = ["CSO", "CMO", "CLO", "CMW"] := rfl
    rw [e]
    decide
  have h := claim6_split_share_amended [("CSO|CMO|CLO", (300 : ℚ)), ("CMW", 100)]
    "CSO|CMO|CLO" 300 "CSO" (List.mem_cons_self _ _) (by decide) (by decide) hnd
  exact ⟨List.mem_cons_self _ _, by decide, by decide, hnd, h.1⟩

/-- Counterexample for C6 as stated: at this concrete county, the per-code
floor-area fraction is available (it is computed and stored as `3/4`), yet
the weighting share used for `CSO` is the equal division `100`, not the
fraction; the multiplier of commercial.py line 172 uses the equal-division
value. -/
theorem claim6_fraction_not_used_counterexample :
    Commercial.splitShare [("CSO|CMO|CLO", (300 : ℚ)), ("CMW", 100)] "CSO" = 100
    ∧ Commercial.splitFraction [("CSO|CMO|CLO", (300 : ℚ)), ("CMW", 100)] "CSO" = 3 / 4
    ∧ Commercial.splitShare [("CSO|CMO|CLO", (300 : ℚ)), ("CMW", 100)] "CSO"
        ≠ Commercial.splitFraction [("CSO|CMO|CLO", (300 : ℚ)), ("CMW", 100)] "CSO"
    ∧ (∀ (bfa : String → ℚ) (tA : ℚ),
        Commercial.weight bfa tA [("CSO|CMO|CLO", (300 : ℚ)), ("CMW", 100)] "CSO"
          = bfa "CSO" / tA * 100) := by
  have e1 : Commercial.splitShare [("CSO|CMO|CLO", (300 : ℚ)), ("CMW", 100)] "CSO"
      = (300 : ℚ) / ((3 : Nat) : ℚ) := rfl
  have e2 : Commercial.splitFraction [("CSO|CMO|CLO", (300 : ℚ)), ("CMW", 100)] "CSO"
      = (300 : ℚ) / (300 + (100 + 0) : ℚ) := rfl
  have h1 : Commercial.splitShare [("CSO|CMO|CLO", (300 : ℚ)), ("CMW", 100)] "CSO" = 100 := by
    rw [e1]
    norm_num
  have h2 : Commercial.splitFraction [("CSO|CMO|CLO", (300 : ℚ)), ("CMW", 100)] "CSO" = 3 / 4 := by
    rw [e2]
    norm_num
  refine ⟨h1, h2, ?_, ?_⟩
  · rw [h1, h2]
    norm_num
  · intro bfa tA
    unfold Commercial.weight
    rw [h1]


/-- The outer-join key set is strictly sorted. -/
theorem sorted_outerKeys (a b : List Nat) :
    List.Sorted (fun x y : Nat => x < y) (outerKeys a b) := by
  unfold outerKeys sortIndex
  have hle : List.Sorted (fun x y : Nat => x ≤ y)
      (List.insertionSort (fun x y : Nat => x ≤ y) ((a ++ b).dedup)) :=
    List.sorted_insertionSort _ _
  have hnd : (List.insertionSort (fun x y : Nat => x ≤ y) ((a ++ b).dedup)).Nodup :=
    ((List.perm_insertionSort (fun x y : Nat => x ≤ y) ((a ++ b).dedup)).symm).nodup
      (List.nodup_dedup _)
  exact hle.lt_of_le hnd

/-- Membership in the outer-join key set. -/
theorem mem_outerKeys (a b : List Nat) (x : Nat) :
    x ∈ outerKeys a b ↔ x ∈ a ∨ x ∈ b := by
  unfold outerKeys sortIndex
  rw [(List.perm_insertionSort _ _).mem_iff, List.mem_dedup, List.mem_append]

/-- A merge key that is not a canonical county FIPS code carries NaN. -/
theorem countyLabel_eq_none (counties : List (Nat × String)) (k : Nat)
    (h : k ∉ counties.map Prod.fst) : countyLabel counties k = none := by
  unfold countyLabel
  rw [List.find?_eq_none.mpr
    (fun x hx hbeq => h (List.mem_map.mpr ⟨x, hx, beq_iff_eq.mp hbeq⟩))]
  rfl

/-- A canonical county FIPS code carries its county name. -/
theorem countyLabel_eq_some (counties : List (Nat × String)) (c : Nat) (nm : String)
    (hnd : (counties.map Prod.fst).Nodup) (hmem : (c, nm) ∈ counties) :
    countyLabel counties c = some nm := by
  unfold countyLabel
  rw [find?_key_unique Prod.fst counties (c, nm) c rfl hnd hmem]
  rfl

/-- The forward fill assigns to an unlabelled key the label of the nearest
earlier labelled row: the main induction behind the FIPS attribution. -/
theorem ffill_find (f : Nat → Option String) (nm : String) :
    ∀ (keys : List Nat) (k : Nat) (last : Option String),
      List.Sorted (fun x y : Nat => x < y) keys → k ∈ keys → f k = none →
      ((∃ c, c ∈ keys ∧ c < k ∧ f c = some nm
          ∧ ∀ x ∈ keys, c < x → x < k → f x = none)
        ∨ (last = some nm ∧ ∀ x ∈ keys, x < k → f x = none)) →
      ((ffillFrom last (keys.map (fun x => (x, f x)))).find?
          (fun r => r.1 == k)).map Prod.snd = some (some nm) := by
  intro keys
  induction keys with
  | nil =>
    intro k last _ hk _ _
    cases hk
  | cons a tl ih =>
    intro k last hsorted hk hfk H
    obtain ⟨ha_lt, hsorted_tl⟩ := List.sorted_cons.mp hsorted
    rw [List.map_cons]
    by_cases hak : a = k
    · subst hak
      rw [hfk]
      have hlast : last = some nm := by
        rcases H with ⟨c, hc_mem, hck, hfc, _⟩ | ⟨hl, _⟩
        · rcases List.mem_cons.mp hc_mem with h | hc_tl
          · omega
          · exact absurd hck (by have := ha_lt c hc_tl; omega)
        · exact hl
      simp only [ffillFrom]
      rw [List.find?_cons_of_pos _ (by simp)]
      rw [hlast]
      rfl
    · have hk_tl : k ∈ tl := by
        rcases List.mem_cons.mp hk with h | h
        · exact absurd h.symm hak
        · exact h
      have hak_lt : a < k := ha_lt k hk_tl
      cases hfa : f a with
      | some v =>
        simp only [ffillFrom]
        rw [List.find?_cons_of_neg _ (by simp [hak])]
        apply ih k (some v) hsorted_tl hk_tl hfk
        rcases H with ⟨c, hc_mem, hck, hfc, hbet⟩ | ⟨_, hall⟩
        · rcases List.mem_cons.mp hc_mem with h | hc_tl
          · subst h
            have hv : some v = some nm := by rw [← hfa, hfc]
            refine Or.inr ⟨hv, fun x hx hxk => ?_⟩
            exact hbet x (List.mem_cons_of_mem _ hx) (ha_lt x hx) hxk
          · exact Or.inl ⟨c, hc_tl, hck, hfc,
              fun x hx => hbet x (List.mem_cons_of_mem _ hx)⟩
        · rw [hall a (List.mem_cons_self a tl) hak_lt] at hfa
          cases hfa
      | none =>
        simp only [ffillFrom]
        rw [List.find?_cons_of_neg _ (by simp [hak])]
        apply ih k last hsorted_tl hk_tl hfk
        rcases H with ⟨c, hc_mem, hck, hfc, hbet⟩ | ⟨hl, hall⟩
        · rcases List.mem_cons.mp hc_mem with h | hc_tl
          · subst h
            rw [hfa] at hfc
            cases hfc
          · exact Or.inl ⟨c, hc_tl, hck, hfc,
              fun x hx => hbet x (List.mem_cons_of_mem _ hx)⟩
        · exact Or.inr ⟨hl, fun x hx => hall x (List.mem_cons_of_mem _ hx)⟩

/-- Claim C7: in the Industry and Agriculture aggregation, a data row whose
FIPS code matches no canonical county is attributed by the outer join plus
forward fill to the county with the greatest FIPS code below it — the
county that precedes it in sorted FIPS order. -/
theorem claim7_fips_forward_fill (counties : List (Nat × String))
    (dataKeys : List Nat) (k c : Nat) (nm : String)
    (hsorted : List.Sorted (fun x y : Nat => x < y) (counties.map Prod.fst))
    (hk_data : k ∈ dataKeys)
    (hk_not : k ∉ counties.map Prod.fst)
    (hc_mem : (c, nm) ∈ counties)
    (hck : c < k)
    (hmax : ∀ p ∈ counties, p.1 < k → p.1 ≤ c) :
    Industry.attributed counties dataKeys k = some nm
    ∧ Agriculture.attributed counties dataKeys k = some nm := by
  have hnd : (counties.map Prod.fst).Nodup := hsorted.nodup
  have hbetween : ∀ x ∈ outerKeys (counties.map Prod.fst) dataKeys,
      c < x → x < k → countyLabel counties x = none := by
    intro x hx hcx hxk
    cases hcl : countyLabel counties x with
    | none => rfl
    | some v =>
      exfalso
      unfold countyLabel at hcl
      obtain ⟨p, hp, _⟩ := Option.map_eq_some'.mp hcl
      have hpx : p.1 = x := by
        have h2 := List.find?_some hp
        simp at h2
        exact h2
      have hple := hmax p (List.mem_of_find?_eq_some hp) (by omega)
      omega
  have main : attributedCounty counties dataKeys k = some nm := by
    unfold attributedCounty mergedRows
    rw [ffill_find (countyLabel counties) nm
      (outerKeys (counties.map Prod.fst) dataKeys) k none
      (sorted_outerKeys _ _)
      ((mem_outerKeys _ _ k).mpr (Or.inr hk_data))
      (countyLabel_eq_none counties k hk_not)
      (Or.inl ⟨c,
        (mem_outerKeys _ _ c).mpr (Or.inl (List.mem_map.mpr ⟨(c, nm), hc_mem, rfl⟩)),
        hck,
        countyLabel_eq_some counties c nm hnd hc_mem,
        hbetween⟩)]
    rfl
  exact ⟨main, main⟩

/-- Witness for C7 at the documented quirk: NREL data code 2270 is not a
canonical county FIPS code; it is attributed to county 2265, the valid
code preceding it in sorted order, not to 2275. -/
theorem claim7_fips_forward_fill_witness :
    List.Sorted (fun x y : Nat => x < y) (([(2265, "Bethel"), (2275, "Wrangell")] : List (Nat × String)).map Prod.fst)
    ∧ (2270 : Nat) ∈ [2270]
    ∧ (2270 : Nat) ∉ (([(2265, "Bethel"), (2275, "Wrangell")] : List (Nat × String)).map Prod.fst)
    ∧ ((2265 : Nat), "Bethel") ∈ ([(2265, "Bethel"), (2275, "Wrangell")] : List (Nat × String))
    ∧ (2265 : Nat) < 2270
    ∧ (∀ p ∈ ([(2265, "Bethel"), (2275, "Wrangell")] : List (Nat × String)), p.1 < 2270 → p.1 ≤ 2265)
    ∧ Industry.attributed [(2265, "Bethel"), (2275, "Wrangell")] [2270] 2270 = some "Bethel"
    ∧ Agriculture.attributed [(2265, "Bethel"), (2275, "Wrangell")] [2270] 2270 = some "Bethel" := by
  have h := claim7_fips_forward_fill [(2265, "Bethel"), (2275, "Wrangell")] [2270]
    2270 2265 "Bethel" (by decide) (by decide) (by decide) (by decide) (by decide)
    (by decide)
  exact ⟨by decide, by decide, by decide, by decide, by decide, by decide, h.1, h.2⟩

